import Mathlib

/-!
Shallow embedding of the ob_replay replay-and-evaluation engine
(src/main/benchmark.py, compatibility.py, capture.py, replay.py,
models.py, oceanbase_client.py) together with theorems settling the
specification claims.

Modelling conventions:
* Python `float` values (latencies) are embedded as `ℚ`;
  Python `int` as `Int`/`Nat`; `datetime` timestamps as `Int`.
* Nondeterministic effects (subprocess outcomes, wall-clock timing,
  filesystem contents, JSON parsing, thread scheduling) are passed in
  explicitly as oracle functions.
* Whether an effectful path was taken (a real execution, a subprocess
  call) is returned as an explicit flag next to the pure result.
-/

/-! ### Models of Python built-ins -/

/-- Model of Python `str.lower()` (the strings the code lowers are ASCII). -/
def pyLower (s : String) : String := ⟨s.data.map Char.toLower⟩

/-- Characters stripped by Python `str.strip()` with no argument. -/
def pyIsSpace (c : Char) : Bool := c = ' ' || c = '\t' || c = '\n' || c = '\r'

/-- Model of Python `str.strip()`: drop leading and trailing whitespace. -/
def pyStrip (s : String) : String :=
  ⟨((s.data.dropWhile pyIsSpace).reverse.dropWhile pyIsSpace).reverse⟩

/-- `strContainsList needle hay`: does `hay` contain `needle` as a
contiguous sublist? Model of Python `needle in hay` on the char lists. -/
def strContainsList (needle : List Char) : List Char → Bool
  | [] => needle.isEmpty
  | c :: rest => needle.isPrefixOf (c :: rest) || strContainsList needle rest

/-- Model of the Python substring test `needle in hay`. -/
def inStr (needle hay : String) : Bool := strContainsList needle.data hay.data

/-- Model of Python `a or b` for two strings (`""` is falsy). -/
def pyOrStr (a b : String) : String := if a = "" then b else a

/-- Model of Python `x or d` where `x : Optional[str]` and `d` a string
(`None` and `""` are falsy). -/
def pyOrDefault (o : Option String) (d : String) : String :=
  match o with
  | none => d
  | some s => if s = "" then d else s

/-- Model of Python truthiness of an `Optional[str]` value
(`None` and `""` are falsy, any other string truthy). -/
def pyTruthyStr (o : Option String) : Bool :=
  match o with
  | none => false
  | some s => !(s = "")

/-- Model of Python `int()` applied to a nonnegative-or-negative rational:
truncation toward zero. -/
def pyTrunc (q : ℚ) : Int := if 0 ≤ q then ⌊q⌋ else -⌊-q⌋

/-- Model of `os.path.join(d, name)` for a relative `name`. -/
def path_join (d name : String) : String :=
  if d = "" then name
  else if d.data.getLast? = some '/' then d ++ name
  else d ++ "/" ++ name

/-! ### src/main/models.py -/

/-- `models.ExecutionResult`. -/
structure ExecutionResult where
  sql : String
  success : Bool
  elapsed_ms : ℚ
  rows : Option (List String) := none
  error_message : Option String := none
  plan : Option String := none
  raw_output : Option String := none
deriving Repr, DecidableEq

/-- `models.CompatibilityIssue`. -/
structure CompatibilityIssue where
  sql : String
  is_supported : Bool
  stage : String
  error_message : Option String := none
  hint : Option String := none
  plan : Option String := none
deriving Repr, DecidableEq

/-- `models.BenchmarkResult`. -/
structure BenchmarkResult where
  sql : String
  iterations : Nat
  concurrency : Nat
  avg_ms : ℚ
  p95_ms : ℚ
  successes : Int
  failures : Int
  samples_ms : List ℚ := []
  errors : List String := []
  oracle_baseline_ms : Option ℚ := none
deriving Repr, DecidableEq

/-! ### src/main/oceanbase_client.py

The `obclient` subprocess is the source of nondeterminism: its behaviour
is an oracle mapping the SQL text piped to it to a process outcome. -/

/-- Outcome of one `subprocess.run` of obclient: return code, decoded
stdout/stderr, and the wall-clock time the call took. -/
structure ProcOutcome where
  returncode : Int
  stdout_text : String
  stderr_text : String
  elapsed_ms : ℚ
deriving Repr, DecidableEq

/-- Body of `OceanBaseClient.execute` given the subprocess outcome:
`success = (returncode == 0)`; on failure
`error_message = stderr or stdout` (Python string-or). -/
def execute_outcome (p : ProcOutcome) (sql : String) : ExecutionResult :=
  let success := p.returncode == 0
  { sql := sql
    success := success
    elapsed_ms := p.elapsed_ms
    raw_output := some p.stdout_text
    error_message := if success then none else some (pyOrStr p.stderr_text p.stdout_text) }

/-- `OceanBaseClient`, reduced to its effect: the subprocess behaviour. -/
structure OceanBaseClient where
  proc : String → ProcOutcome

/-- `OceanBaseClient.execute`. -/
def OceanBaseClient.execute (c : OceanBaseClient) (sql : String) : ExecutionResult :=
  execute_outcome (c.proc sql) sql

/-- `OceanBaseClient.explain`: run `"EXPLAIN " + sql`, then store the raw
output as the plan and restore the original statement text. -/
def OceanBaseClient.explain (c : OceanBaseClient) (sql : String) : ExecutionResult :=
  let result := c.execute ("EXPLAIN " ++ sql)
  { result with plan := result.raw_output, sql := sql }

/-! ### src/main/compatibility.py -/

/-- Hint text for the not-supported / feature-gap rule. -/
def hint_not_supported : String := "OceanBase Oracle 模式暂不支持该语法，请改写或升级版本后再试。"

/-- Hint text for the proprietary-syntax rule. -/
def hint_proprietary : String := "检查 Oracle 专有语法或函数，必要时使用兼容写法。"

/-- Hint text for the privilege-mismatch rule. -/
def hint_privilege : String := "检查目标库用户权限，与 Oracle 源库保持一致。"

/-- Hint text for the missing-object rule. -/
def hint_missing_object : String := "确认迁移后的表/视图是否存在，或补充同名同结构对象。"

/-- `compatibility._hint_from_error`. -/
def _hint_from_error (message : Option String) : Option String :=
  match message with
  | none => none
  | some m =>
    if m = "" then none
    else
      let msg := pyLower m
      if inStr "not supported" msg || inStr "feature not supported" msg then
        some hint_not_supported
      else if inStr "syntax error" msg then
        some hint_proprietary
      else if inStr "permission" msg || inStr "privilege" msg then
        some hint_privilege
      else if inStr "table or view does not exist" msg then
        some hint_missing_object
      else none

/-- The hint rule table as the spec states it: ordered list of
(trigger substrings, hint), first match wins. -/
def hint_rule_table : List (List String × String) :=
  [(["not supported", "feature not supported"], hint_not_supported),
   (["syntax error"], hint_proprietary),
   (["permission", "privilege"], hint_privilege),
   (["table or view does not exist"], hint_missing_object)]

/-- Hint derivation as the spec words it: case-insensitive substring test
of each rule's patterns against the error text, first match wins, no
match (or no error text) gives no hint. -/
def hint_spec (message : Option String) : Option String :=
  match message with
  | none => none
  | some m =>
    (hint_rule_table.find? (fun rule => rule.1.any (fun pat => inStr pat (pyLower m)))).map
      Prod.snd

/-- `compatibility.check_sql`. The second component records whether the
real-execute path (`ob_client.execute(sql)`) was invoked. -/
def check_sql (ob_client : OceanBaseClient) (sql : String) (execute : Bool) :
    CompatibilityIssue × Bool :=
  let explain_result := ob_client.explain sql
  if !explain_result.success then
    ({ sql := sql
       is_supported := false
       stage := "explain"
       error_message := explain_result.error_message
       hint := _hint_from_error explain_result.error_message }, false)
  else if !execute then
    ({ sql := sql
       is_supported := true
       stage := "explain"
       plan := explain_result.plan }, false)
  else
    let exec_result := ob_client.execute sql
    if exec_result.success then
      ({ sql := sql
         is_supported := true
         stage := "execute"
         plan := explain_result.plan }, true)
    else
      ({ sql := sql
         is_supported := false
         stage := "execute"
         error_message := exec_result.error_message
         hint := _hint_from_error exec_result.error_message
         plan := explain_result.plan }, true)

/-! ### src/main/benchmark.py

Per-attempt nondeterminism (the subprocess outcome of the i-th call and
the wall clock measured around it) is an oracle indexed by the attempt
number. The thread-pool path runs the same per-attempt body under a lock;
the interleaving is an arbitrary schedule of the attempt indices, passed
in as `sched`. -/

/-- `statistics.mean`. -/
def mean (l : List ℚ) : ℚ := l.sum / (l.length : ℚ)

/-- `benchmark._percentile`. `math.floor`/`math.ceil` return ints; the
`int()` around `k` truncates toward zero. -/
def _percentile (data : List ℚ) (percentile : ℚ) : ℚ :=
  if data = [] then 0
  else
    let ordered := List.insertionSort (fun a b => a ≤ b) data
    let k : ℚ := ((ordered.length : ℚ) - 1) * (percentile / 100)
    let f : Int := ⌊k⌋
    let c : Int := ⌈k⌉
    if f = c then ordered.getD (pyTrunc k).toNat 0
    else
      let d0 := ordered.getD f.toNat 0 * ((c : ℚ) - k)
      let d1 := ordered.getD c.toNat 0 * (k - (f : ℚ))
      d0 + d1

/-- p95 as the spec words it: sort ascending, fractional rank
`k = (n-1) * 0.95`; if `k` lands on an integer index return that sample,
otherwise interpolate between the floor- and ceiling-index samples
weighted by the fractional distance. -/
def p95_spec (data : List ℚ) : ℚ :=
  let ordered := List.insertionSort (fun a b => a ≤ b) data
  let k : ℚ := ((ordered.length : ℚ) - 1) * (95 / 100)
  if (⌊k⌋ : ℚ) = k then ordered.getD (⌊k⌋).toNat 0
  else
    ordered.getD (⌊k⌋).toNat 0 * ((⌈k⌉ : ℚ) - k) +
      ordered.getD (⌈k⌉).toNat 0 * (k - (⌊k⌋ : ℚ))

/-- Body of `_run_once` for attempt `i`, threaded over the
(samples, errors) accumulator: always append the measured elapsed time;
on failure additionally append `error_message or "unknown error"`. -/
def bench_step (outcomes : Nat → ProcOutcome) (timing : Nat → ℚ) (sql : String)
    (acc : List ℚ × List String) (i : Nat) : List ℚ × List String :=
  let result := execute_outcome (outcomes i) sql
  let elapsed_ms := timing i
  if result.success then (acc.1 ++ [elapsed_ms], acc.2)
  else (acc.1 ++ [elapsed_ms], acc.2 ++ [pyOrDefault result.error_message "unknown error"])

/-- `benchmark.run_benchmark`. With `concurrency <= 1` the attempts run
in submission order `0, 1, ..., iterations-1`; otherwise in the order the
thread pool schedules them (`sched`). -/
def run_benchmark (outcomes : Nat → ProcOutcome) (timing : Nat → ℚ) (sql : String)
    (iterations concurrency : Nat) (sched : List Nat)
    (oracle_baseline_ms : Option ℚ) : BenchmarkResult :=
  let attempts := if concurrency ≤ 1 then List.range iterations else sched
  let samples_errors := attempts.foldl (bench_step outcomes timing sql) ([], [])
  let samples_ms := samples_errors.1
  let errors := samples_errors.2
  let successes : Int := (iterations : Int) - errors.length
  let failures : Int := errors.length
  let avg_ms := if samples_ms = [] then 0 else mean samples_ms
  let p95_ms := if samples_ms = [] then 0 else _percentile samples_ms 95
  { sql := sql
    iterations := iterations
    concurrency := concurrency
    avg_ms := avg_ms
    p95_ms := p95_ms
    successes := successes
    failures := failures
    samples_ms := samples_ms
    errors := errors
    oracle_baseline_ms := oracle_baseline_ms }

/-! ### src/main/capture.py — streaming capture

`datetime` values are embedded as `Int` timestamps. One `v$sql` row as
unpacked by `stream_sqls`; the poll results and the bind-capture query
results are oracles. The while-loop over wall-clock time is embedded as
a fold over the finite list of poll batches the loop body saw. -/

/-- One row of the `v$sql_bind_capture` query made by `_fetch_binds`. -/
structure BindRow where
  position : Int
  name : Option String
  datatype : Option String
  value : Option String
deriving Repr, DecidableEq

/-- One row of the `v$sql` polling query, in `stream_sqls` unpacking
order. -/
structure VRow where
  sql_id : String
  child_number : Int
  schema : Option String
  module : Option String
  last_active : Int
  sql_text : String
  elapsed_us : Option Int
  executions : Option Int
  cpu_us : Option Int
  buffer_gets : Option Int
  disk_reads : Option Int
  rows_proc : Option Int
  fetches : Option Int
deriving Repr, DecidableEq

/-- The JSON-lines record `stream_sqls` writes for one surviving row
(`last_active_time` kept as the timestamp it formats). -/
structure CaptureRecord where
  sql_id : String
  child_number : Int
  schema : Option String
  module : Option String
  last_active_time : Int
  sql_text : String
  binds : List BindRow
  executions : Option Int
  avg_elapsed_ms : Option ℚ
  elapsed_time_us : Option Int
  cpu_time_us : Option Int
  buffer_gets : Option Int
  disk_reads : Option Int
  rows_processed : Option Int
  fetches : Option Int
deriving Repr, DecidableEq

/-- The keyword arguments of `stream_sqls` that shape filtering and
deduplication. -/
structure StreamConfig where
  include_binds : Bool
  dedup : Bool
  include_schemas : Option (List String)
  include_modules : Option (List String)
  default_include_all : Bool

/-- `{s.lower() for s in include_schemas} if include_schemas else None`
(an empty iterable is falsy, hence also `None`). -/
def schemas_set (cfg : StreamConfig) : Option (List String) :=
  match cfg.include_schemas with
  | none => none
  | some l => if l = [] then none else some (l.map pyLower)

/-- Same construction for `include_modules`. -/
def modules_set (cfg : StreamConfig) : Option (List String) :=
  match cfg.include_modules with
  | none => none
  | some l => if l = [] then none else some (l.map pyLower)

/-- The schema filter of the row loop: with a filter set, keep rows whose
lowered schema is in the set; with no set, keep rows only when
`default_include_all`. -/
def row_passes_schema (cfg : StreamConfig) (r : VRow) : Bool :=
  match schemas_set cfg with
  | some s => s.contains (pyLower (r.schema.getD ""))
  | none => cfg.default_include_all

/-- The module filter: `include_modules_set` is either `None` or a
nonempty set, so the Python truthiness test is just the `some` case. -/
def row_passes_module (cfg : StreamConfig) (r : VRow) : Bool :=
  match modules_set cfg with
  | some s => s.contains (pyLower (r.module.getD ""))
  | none => true

/-- The dedup key `(sql_id, child, last_active)`. -/
def row_key (r : VRow) : String × Int × Int := (r.sql_id, r.child_number, r.last_active)

/-- The record built for a surviving row: binds fetched only when
`include_binds`; `avg_elapsed_ms` only when `executions` is truthy,
positive and `elapsed_time` is present. -/
def make_record (cfg : StreamConfig) (binds_fn : String → Int → List BindRow)
    (r : VRow) : CaptureRecord :=
  let binds := if cfg.include_binds then binds_fn r.sql_id r.child_number else []
  let avg_elapsed_ms : Option ℚ :=
    match r.executions, r.elapsed_us with
    | some e, some el => if 0 < e then some ((el : ℚ) / 1000 / (e : ℚ)) else none
    | _, _ => none
  { sql_id := r.sql_id
    child_number := r.child_number
    schema := r.schema
    module := r.module
    last_active_time := r.last_active
    sql_text := r.sql_text
    binds := binds
    executions := r.executions
    avg_elapsed_ms := avg_elapsed_ms
    elapsed_time_us := r.elapsed_us
    cpu_time_us := r.cpu_us
    buffer_gets := r.buffer_gets
    disk_reads := r.disk_reads
    rows_processed := r.rows_proc
    fetches := r.fetches }

/-- The mutable state of the `stream_sqls` loop: cursor, seen dedup keys,
records appended to the output file so far, and the written count. -/
structure StreamState where
  last_time : Int
  seen : List (String × Int × Int)
  output : List CaptureRecord
  count : Nat
deriving Repr, DecidableEq

/-- The body of the per-row loop of `stream_sqls`: apply the schema,
module and dedup filters; on survival append the record to the output
file, remember the dedup key (the key tuple is always truthy), and bump
the count. -/
def process_row (cfg : StreamConfig) (binds_fn : String → Int → List BindRow)
    (st : StreamState) (r : VRow) : StreamState :=
  if !row_passes_schema cfg r then st
  else if !row_passes_module cfg r then st
  else if cfg.dedup && st.seen.contains (row_key r) then st
  else
    { st with
      output := st.output ++ [make_record cfg binds_fn r]
      seen := if cfg.dedup then st.seen ++ [row_key r] else st.seen
      count := st.count + 1 }

/-- One iteration of the polling loop: if the batch is nonempty, first
advance the cursor to the last row's timestamp, then run the row loop. -/
def process_poll (cfg : StreamConfig) (binds_fn : String → Int → List BindRow)
    (st : StreamState) (rows : List VRow) : StreamState :=
  let st1 :=
    match rows.getLast? with
    | some r => { st with last_time := r.last_active }
    | none => st
  rows.foldl (process_row cfg binds_fn) st1

/-- `capture.stream_sqls`, as the fold of the poll loop over the batches
returned by `_fetch_sqls_since` during the run; `init_time` is the cursor
initialisation `db time - interval_seconds`. -/
def stream_sqls (cfg : StreamConfig) (binds_fn : String → Int → List BindRow)
    (init_time : Int) (polls : List (List VRow)) : StreamState :=
  polls.foldl (process_poll cfg binds_fn)
    { last_time := init_time, seen := [], output := [], count := 0 }

/-- The dedup key of a written record. -/
def record_key (rc : CaptureRecord) : String × Int × Int :=
  (rc.sql_id, rc.child_number, rc.last_active_time)

/-- Cursor advance of one poll: the last row's timestamp, or unchanged on
an empty batch. -/
def next_cursor (t : Int) (rows : List VRow) : Int :=
  match rows.getLast? with
  | some r => r.last_active
  | none => t

/-- Validity of a poll sequence, as guaranteed by the
`last_active_time > :last_time` predicate of the polling query: every row
of each batch is strictly newer than the cursor in force when that batch
was fetched. -/
def valid_polls (t : Int) : List (List VRow) → Prop
  | [] => True
  | rows :: rest => (∀ r ∈ rows, t < r.last_active) ∧ valid_polls (next_cursor t rows) rest

/-- The trace of states at poll boundaries: the initial state, then the
state after each poll. -/
def poll_states (cfg : StreamConfig) (binds_fn : String → Int → List BindRow)
    (st : StreamState) : List (List VRow) → List StreamState
  | [] => [st]
  | rows :: rest => st :: poll_states cfg binds_fn (process_poll cfg binds_fn st rows) rest

/-! ### src/main/capture.py — `load_sqls_from_jsonl`

The filesystem is an oracle `fs : path → FileState` distinguishing an
absent path (`os.path.exists` is false and `open` raises
`FileNotFoundError`), an existing but unreadable path (`os.path.exists`
is true but `open` raises `PermissionError`), and readable content.
`json.loads` is an oracle producing a Python value, `none` meaning
`json.JSONDecodeError`. -/

/-- The filesystem's answer for one path. -/
inductive FileState where
  | absent : FileState
  | unreadable : FileState
  | content (lines : List String) : FileState

/-- Model of a Python value produced by `json.loads`. -/
inductive PyVal where
  | vnull : PyVal
  | vbool (b : Bool) : PyVal
  | vint (i : Int) : PyVal
  | vstr (s : String) : PyVal
  | varr (l : List PyVal) : PyVal
  | vobj (fields : List (String × PyVal)) : PyVal

/-- Model of Python truthiness of a JSON-decoded value. -/
def pyTruthyVal : PyVal → Bool
  | .vnull => false
  | .vbool b => b
  | .vint i => !(i = 0)
  | .vstr s => !(s = "")
  | .varr l => !l.isEmpty
  | .vobj f => !f.isEmpty

mutual

/-- Model of Python `str()` on a JSON-decoded value (container rendering
abstracted; the repository only applies it to the `sql_text` field). -/
def pyStrVal : PyVal → String
  | .vnull => "None"
  | .vbool true => "True"
  | .vbool false => "False"
  | .vint i => toString i
  | .vstr s => s
  | .varr l => "[" ++ pyStrValList l ++ "]"
  | .vobj f => "dict(" ++ String.intercalate ", " (f.map fun kv => kv.1) ++ ")"

/-- Comma-joined rendering of a list of JSON-decoded values. -/
def pyStrValList : List PyVal → String
  | [] => ""
  | [v] => pyStrVal v
  | v :: rest => pyStrVal v ++ ", " ++ pyStrValList rest

end

/-- How one line of the capture log contributes to the extracted list:
`ok none` = skipped (blank line, undecodable line, absent or falsy
`sql_text`), `ok (some s)` = one extracted statement, `error` = an
uncaught exception (`.get` on a non-dict value) aborting the read. -/
def jsonl_line (jparse : String → Option PyVal) (line : String) :
    Except String (Option String) :=
  let l := pyStrip line
  if l = "" then .ok none
  else
    match jparse l with
    | none => .ok none
    | some (.vobj fields) =>
      match fields.lookup "sql_text" with
      | none => .ok none
      | some sv => if pyTruthyVal sv then .ok (some (pyStrip (pyStrVal sv))) else .ok none
    | some _ => .error "AttributeError"

/-- The line loop of `load_sqls_from_jsonl`. -/
def jsonl_lines (jparse : String → Option PyVal) : List String → Except String (List String)
  | [] => .ok []
  | l :: rest =>
    match jsonl_line jparse l with
    | .error e => .error e
    | .ok none => jsonl_lines jparse rest
    | .ok (some s) => (jsonl_lines jparse rest).map (fun tl => s :: tl)

/-- `capture.load_sqls_from_jsonl`: `open` raises on a missing or
unreadable path (nothing catches it), otherwise extract `sql_text` of
each decodable line. -/
def load_sqls_from_jsonl (fs : String → FileState)
    (jparse : String → Option PyVal) (path : String) : Except String (List String) :=
  match fs path with
  | .absent => .error "FileNotFoundError"
  | .unreadable => .error "PermissionError"
  | .content ls => jsonl_lines jparse ls

/-! ### src/main/replay.py -/

/-- `replay._read_sql_lines`: guarded only by `os.path.exists`, so an
absent path yields `[]`, while an existing unreadable path raises out of
the unguarded `open`; otherwise keep the stripped nonempty lines. -/
def _read_sql_lines (fs : String → FileState) (path : String) :
    Except String (List String) :=
  match fs path with
  | .absent => .ok []
  | .unreadable => .error "PermissionError"
  | .content ls => .ok ((ls.map pyStrip).filter (fun l => !(l = "")))

/-- `replay._read_sqls`: dispatch on the format (the `try/except` there
only guards the module import, not the read). -/
def _read_sqls (fs : String → FileState) (jparse : String → Option PyVal)
    (path fmt : String) : Except String (List String) :=
  if fmt = "jsonl" then load_sqls_from_jsonl fs jparse path
  else _read_sql_lines fs path

/-- The dictionary `run_offline` returns (dict modelled as an association
list for the baselines). -/
structure OfflineReport where
  sqls : List String
  compat : List CompatibilityIssue
  bench : List BenchmarkResult
  oma_output : Option String
  oracle_baselines : List (String × ℚ)

/-- `replay.run_offline`. Oracles: `fs`/`jparse` as above; `oma_run` is
the combined stdout+stderr of the analysis-tool subprocess as a function
of (tool path, capture dir, extra args); `bench_outcomes`/`bench_timing`/
`bench_sched` are the per-statement benchmark oracles. The first
component of the result records whether the analysis-tool subprocess was
invoked; the second is the report, or the uncaught exception of a failing
jsonl read. -/
def run_offline (fs : String → FileState) (jparse : String → Option PyVal)
    (oma_run : String → String → Option String → String)
    (ob_client : OceanBaseClient)
    (bench_outcomes : String → Nat → ProcOutcome) (bench_timing : String → Nat → ℚ)
    (bench_sched : String → List Nat)
    (capture_dir : String) (mode : String) (concurrency iterations : Nat)
    (oma_cli : Option String) (oma_extra : Option String)
    (sqls_file : Option String) (sqls_format : String)
    (oracle_baselines : Option (List (String × ℚ))) :
    Bool × Except String OfflineReport :=
  let oma_invoked := pyTruthyStr oma_cli && !pyTruthyStr sqls_file
  let oma_output : Option String :=
    if oma_invoked then some (oma_run (oma_cli.getD "") capture_dir oma_extra) else none
  let sql_file :=
    match sqls_file with
    | some s => if s = "" then path_join capture_dir "sqls.txt" else s
    | none => path_join capture_dir "sqls.txt"
  match _read_sqls fs jparse sql_file sqls_format with
  | .error e => (oma_invoked, .error e)
  | .ok sqls =>
    let compat_results :=
      if mode = "compat" then sqls.map (fun sql => (check_sql ob_client sql false).1) else []
    let bench_results :=
      if mode = "compat" then []
      else
        sqls.map (fun sql =>
          run_benchmark (bench_outcomes sql) (bench_timing sql) sql iterations concurrency
            (bench_sched sql) ((oracle_baselines.getD []).lookup sql))
    (oma_invoked,
     .ok { sqls := sqls
           compat := compat_results
           bench := bench_results
           oma_output := oma_output
           oracle_baselines := oracle_baselines.getD [] })

/-! ### Helper lemmas -/

/-- A failing client call always carries an error message
(`stderr or stdout`, possibly the empty string, never `None`). -/
theorem execute_outcome_failure_message (p : ProcOutcome) (sql : String)
    (h : (execute_outcome p sql).success = false) :
    (execute_outcome p sql).error_message = some (pyOrStr p.stderr_text p.stdout_text) := by
  simp only [execute_outcome] at *
  simp only [h, Bool.false_eq_true, if_false]

/-- `explain` preserves success, error message and raw output of the
underlying `EXPLAIN` call, and publishes the raw output as the plan. -/
theorem explain_fields (c : OceanBaseClient) (sql : String) :
    (c.explain sql).success = (c.execute ("EXPLAIN " ++ sql)).success ∧
    (c.explain sql).error_message = (c.execute ("EXPLAIN " ++ sql)).error_message ∧
    (c.explain sql).plan = (c.execute ("EXPLAIN " ++ sql)).raw_output := by
  simp [OceanBaseClient.explain]

/-! ### C3 — hint rule table -/

/-- C3: hint derivation follows the spec's rule table under
first-match-wins, case-insensitive substring matching, and the text
"ORA-00942: table or view does not exist" yields exactly the
missing-object hint. -/
theorem C3_hint_first_match :
    (∀ message : Option String, _hint_from_error message = hint_spec message) ∧
    _hint_from_error (some "ORA-00942: table or view does not exist") =
      some hint_missing_object := by
  constructor
  · intro message
    match message with
    | none => rfl
    | some m =>
      by_cases hm : m = ""
      · subst hm; decide
      · simp only [_hint_from_error, hint_spec, hint_rule_table, hm, if_false]
        cases h1 : inStr "not supported" (pyLower m) <;>
          cases h2 : inStr "feature not supported" (pyLower m) <;>
          cases h3 : inStr "syntax error" (pyLower m) <;>
          cases h4 : inStr "permission" (pyLower m) <;>
          cases h5 : inStr "privilege" (pyLower m) <;>
          cases h6 : inStr "table or view does not exist" (pyLower m) <;>
          simp [List.find?, h1, h2, h3, h4, h5, h6]
  · decide

/-! ### C4 — failing EXPLAIN short-circuits -/

/-- C4: whenever the EXPLAIN step fails, `check_sql` returns the
explain-stage unsupported verdict, with the hint derived from the explain
error text and no plan, and the real-execute path is never invoked,
regardless of the `execute` flag. -/
theorem C4_failing_explain_short_circuits (c : OceanBaseClient) (sql : String)
    (execute : Bool) (h : (c.explain sql).success = false) :
    (check_sql c sql execute).1.stage = "explain" ∧
    (check_sql c sql execute).1.is_supported = false ∧
    (check_sql c sql execute).1.error_message = (c.explain sql).error_message ∧
    (check_sql c sql execute).1.hint = _hint_from_error ((c.explain sql).error_message) ∧
    (check_sql c sql execute).1.plan = none ∧
    (check_sql c sql execute).2 = false := by
  simp [check_sql, h]

/-- Witness for C4 at a concrete always-failing client. -/
theorem C4_witness :
    ((OceanBaseClient.explain ⟨fun _ => ⟨1, "", "boom", 1⟩⟩ "SELECT 1").success = false) ∧
    ((check_sql ⟨fun _ => ⟨1, "", "boom", 1⟩⟩ "SELECT 1" true).1.stage = "explain" ∧
     (check_sql ⟨fun _ => ⟨1, "", "boom", 1⟩⟩ "SELECT 1" true).1.is_supported = false ∧
     (check_sql ⟨fun _ => ⟨1, "", "boom", 1⟩⟩ "SELECT 1" true).1.error_message =
       (OceanBaseClient.explain ⟨fun _ => ⟨1, "", "boom", 1⟩⟩ "SELECT 1").error_message ∧
     (check_sql ⟨fun _ => ⟨1, "", "boom", 1⟩⟩ "SELECT 1" true).1.hint =
       _hint_from_error
         ((OceanBaseClient.explain ⟨fun _ => ⟨1, "", "boom", 1⟩⟩ "SELECT 1").error_message) ∧
     (check_sql ⟨fun _ => ⟨1, "", "boom", 1⟩⟩ "SELECT 1" true).1.plan = none ∧
     (check_sql ⟨fun _ => ⟨1, "", "boom", 1⟩⟩ "SELECT 1" true).2 = false) :=
  ⟨by decide, C4_failing_explain_short_circuits ⟨fun _ => ⟨1, "", "boom", 1⟩⟩ "SELECT 1" true
    (by decide)⟩

/-! ### C5 — plan preserved through a failing real execution -/

/-- C5: with `execute=true`, a successful EXPLAIN and a failing real
execution, the verdict is the execute-stage unsupported one, with the
hint and error text from the execution error and the plan carried from
the EXPLAIN step. -/
theorem C5_plan_preserved_on_exec_failure (c : OceanBaseClient) (sql : String)
    (h1 : (c.explain sql).success = true) (h2 : (c.execute sql).success = false) :
    (check_sql c sql true).1.is_supported = false ∧
    (check_sql c sql true).1.stage = "execute" ∧
    (check_sql c sql true).1.error_message = (c.execute sql).error_message ∧
    (check_sql c sql true).1.hint = _hint_from_error ((c.execute sql).error_message) ∧
    (check_sql c sql true).1.plan = (c.explain sql).plan := by
  simp [check_sql, h1, h2]

/-- Witness for C5 at a concrete client whose EXPLAIN succeeds and whose
real execution fails. -/
theorem C5_witness :
    ((OceanBaseClient.explain
        ⟨fun s => if s = "SELECT 1" then ⟨1, "", "no table", 1⟩ else ⟨0, "PLAN", "", 1⟩⟩
        "SELECT 1").success = true) ∧
    ((OceanBaseClient.execute
        ⟨fun s => if s = "SELECT 1" then ⟨1, "", "no table", 1⟩ else ⟨0, "PLAN", "", 1⟩⟩
        "SELECT 1").success = false) ∧
    ((check_sql
        ⟨fun s => if s = "SELECT 1" then ⟨1, "", "no table", 1⟩ else ⟨0, "PLAN", "", 1⟩⟩
        "SELECT 1" true).1.is_supported = false ∧
     (check_sql
        ⟨fun s => if s = "SELECT 1" then ⟨1, "", "no table", 1⟩ else ⟨0, "PLAN", "", 1⟩⟩
        "SELECT 1" true).1.stage = "execute" ∧
     (check_sql
        ⟨fun s => if s = "SELECT 1" then ⟨1, "", "no table", 1⟩ else ⟨0, "PLAN", "", 1⟩⟩
        "SELECT 1" true).1.error_message =
       (OceanBaseClient.execute
          ⟨fun s => if s = "SELECT 1" then ⟨1, "", "no table", 1⟩ else ⟨0, "PLAN", "", 1⟩⟩
          "SELECT 1").error_message ∧
     (check_sql
        ⟨fun s => if s = "SELECT 1" then ⟨1, "", "no table", 1⟩ else ⟨0, "PLAN", "", 1⟩⟩
        "SELECT 1" true).1.hint =
       _hint_from_error
         ((OceanBaseClient.execute
             ⟨fun s => if s = "SELECT 1" then ⟨1, "", "no table", 1⟩ else ⟨0, "PLAN", "", 1⟩⟩
             "SELECT 1").error_message) ∧
     (check_sql
        ⟨fun s => if s = "SELECT 1" then ⟨1, "", "no table", 1⟩ else ⟨0, "PLAN", "", 1⟩⟩
        "SELECT 1" true).1.plan =
       (OceanBaseClient.explain
          ⟨fun s => if s = "SELECT 1" then ⟨1, "", "no table", 1⟩ else ⟨0, "PLAN", "", 1⟩⟩
          "SELECT 1").plan) :=
  ⟨by decide, by decide,
   C5_plan_preserved_on_exec_failure
     ⟨fun s => if s = "SELECT 1" then ⟨1, "", "no table", 1⟩ else ⟨0, "PLAN", "", 1⟩⟩
     "SELECT 1" (by decide) (by decide)⟩

/-! ### C6 — verdict invariant -/

/-- C6: for every verdict `check_sql` can produce, `supported=false`
implies the error text is present, and the hint always equals the
hint derived from the verdict's own error text by the pattern rules
(hence absent when no rule matches). -/
theorem C6_verdict_invariant (c : OceanBaseClient) (sql : String) (execute : Bool) :
    ((check_sql c sql execute).1.is_supported = false →
      ((check_sql c sql execute).1.error_message).isSome = true) ∧
    (check_sql c sql execute).1.hint =
      _hint_from_error ((check_sql c sql execute).1.error_message) := by
  by_cases h : (c.explain sql).success
  · by_cases hex : execute
    · by_cases h2 : (c.execute sql).success
      · simp [check_sql, h, hex, h2, _hint_from_error]
      · have h2' : (execute_outcome (c.proc sql) sql).success = false := by
          simpa [OceanBaseClient.execute] using (Bool.not_eq_true _).mp h2
        have hmsg := execute_outcome_failure_message (c.proc sql) sql h2'
        simp [check_sql, h, hex, OceanBaseClient.execute, h2', hmsg]
    · simp [check_sql, h, hex, _hint_from_error]
  · have hs : (c.execute ("EXPLAIN " ++ sql)).success = false := by
      have := (explain_fields c sql).1
      rw [← this]
      exact (Bool.not_eq_true _).mp h
    have hmsg := execute_outcome_failure_message (c.proc ("EXPLAIN " ++ sql)) ("EXPLAIN " ++ sql)
      (by simpa [OceanBaseClient.execute] using hs)
    have hm2 : ((c.explain sql).error_message).isSome = true := by
      rw [(explain_fields c sql).2.1]
      simp [OceanBaseClient.execute, hmsg]
    simp [check_sql, (Bool.not_eq_true _).mp h, hm2]

/-- Witness for C6 at a concrete failing client: the implication's
hypothesis is discharged concretely. -/
theorem C6_witness :
    ((check_sql ⟨fun _ => ⟨1, "", "denied: insufficient privilege", 1⟩⟩ "SELECT 1"
        false).1.error_message).isSome = true ∧
    (check_sql ⟨fun _ => ⟨1, "", "denied: insufficient privilege", 1⟩⟩ "SELECT 1"
        false).1.hint =
      _hint_from_error
        ((check_sql ⟨fun _ => ⟨1, "", "denied: insufficient privilege", 1⟩⟩ "SELECT 1"
            false).1.error_message) :=
  ⟨(C6_verdict_invariant ⟨fun _ => ⟨1, "", "denied: insufficient privilege", 1⟩⟩ "SELECT 1"
      false).1 (by decide),
   (C6_verdict_invariant ⟨fun _ => ⟨1, "", "denied: insufficient privilege", 1⟩⟩ "SELECT 1"
      false).2⟩

/-! ### C1 — benchmark counting -/

/-- One benchmark attempt appends exactly one timing sample. -/
theorem bench_step_fst_len (outcomes : Nat → ProcOutcome) (timing : Nat → ℚ) (sql : String)
    (acc : List ℚ × List String) (i : Nat) :
    (bench_step outcomes timing sql acc i).1.length = acc.1.length + 1 := by
  by_cases hs : (execute_outcome (outcomes i) sql).success <;> simp [bench_step, hs]

/-- One benchmark attempt appends exactly one error entry when it fails
and none when it succeeds. -/
theorem bench_step_snd_len (outcomes : Nat → ProcOutcome) (timing : Nat → ℚ) (sql : String)
    (acc : List ℚ × List String) (i : Nat) :
    (bench_step outcomes timing sql acc i).2.length =
      acc.2.length + (if (execute_outcome (outcomes i) sql).success then 0 else 1) := by
  by_cases hs : (execute_outcome (outcomes i) sql).success <;> simp [bench_step, hs]

/-- Lengths of the accumulated samples and errors after any sequence of
attempts. -/
theorem bench_fold_lengths (outcomes : Nat → ProcOutcome) (timing : Nat → ℚ) (sql : String)
    (attempts : List Nat) : ∀ acc : List ℚ × List String,
    (attempts.foldl (bench_step outcomes timing sql) acc).1.length =
      acc.1.length + attempts.length ∧
    (attempts.foldl (bench_step outcomes timing sql) acc).2.length =
      acc.2.length + attempts.countP (fun i => !(execute_outcome (outcomes i) sql).success) := by
  induction attempts with
  | nil => intro acc; simp
  | cons i rest ih =>
    intro acc
    have h := ih (bench_step outcomes timing sql acc i)
    simp only [List.foldl_cons, List.countP_cons]
    refine ⟨?_, ?_⟩
    · rw [h.1, bench_step_fst_len]
      simp; omega
    · rw [h.2, bench_step_snd_len]
      by_cases hs : (execute_outcome (outcomes i) sql).success <;> simp [hs] <;> omega

/-- C1: for every iteration count, every per-attempt outcome sequence and
every thread schedule (a permutation of the submitted attempts when
`concurrency > 1`), the benchmark records one timing sample per attempt,
`successes + failures = iterations`, and one error entry per failing
attempt. -/
theorem C1_benchmark_counts (outcomes : Nat → ProcOutcome) (timing : Nat → ℚ)
    (sql : String) (iterations concurrency : Nat) (sched : List Nat)
    (baseline : Option ℚ)
    (h : concurrency ≤ 1 ∨ sched.Perm (List.range iterations)) :
    (run_benchmark outcomes timing sql iterations concurrency sched baseline).samples_ms.length
      = iterations ∧
    (run_benchmark outcomes timing sql iterations concurrency sched baseline).successes +
      (run_benchmark outcomes timing sql iterations concurrency sched baseline).failures
      = (iterations : Int) ∧
    (run_benchmark outcomes timing sql iterations concurrency sched baseline).errors.length
      = (List.range iterations).countP
          (fun i => !(execute_outcome (outcomes i) sql).success) := by
  have key : ∀ attempts : List Nat, attempts.Perm (List.range iterations) →
      (attempts.foldl (bench_step outcomes timing sql) ([], [])).1.length = iterations ∧
      (attempts.foldl (bench_step outcomes timing sql) ([], [])).2.length =
        (List.range iterations).countP
          (fun i => !(execute_outcome (outcomes i) sql).success) := by
    intro attempts hp
    have hl := bench_fold_lengths outcomes timing sql attempts ([], [])
    refine ⟨?_, ?_⟩
    · rw [hl.1]
      simp [hp.length_eq, List.length_range]
    · rw [hl.2]
      simp [hp.countP_eq]
  by_cases hc : concurrency ≤ 1
  · have k := key (List.range iterations) (List.Perm.refl _)
    simp only [run_benchmark, hc, if_true]
    refine ⟨k.1, by omega, k.2⟩
  · have hp : sched.Perm (List.range iterations) := h.resolve_left hc
    have k := key sched hp
    simp only [run_benchmark, hc, if_false]
    refine ⟨k.1, by omega, k.2⟩

/-- Witness for C1 at a concrete schedule and outcome sequence. -/
theorem C1_witness :
    ((2 : Nat) ≤ 1 ∨ ([2, 0, 1] : List Nat).Perm (List.range 3)) ∧
    ((run_benchmark (fun i => ⟨i, "", "e", 1⟩) (fun _ => 1) "SELECT 1" 3 2 [2, 0, 1]
        none).samples_ms.length = 3 ∧
     (run_benchmark (fun i => ⟨i, "", "e", 1⟩) (fun _ => 1) "SELECT 1" 3 2 [2, 0, 1]
        none).successes +
       (run_benchmark (fun i => ⟨i, "", "e", 1⟩) (fun _ => 1) "SELECT 1" 3 2 [2, 0, 1]
          none).failures = (3 : Int) ∧
     (run_benchmark (fun i => ⟨i, "", "e", 1⟩) (fun _ => 1) "SELECT 1" 3 2 [2, 0, 1]
        none).errors.length =
       (List.range 3).countP
         (fun i => !(execute_outcome ((fun i : Nat => (⟨i, "", "e", 1⟩ : ProcOutcome)) i)
            "SELECT 1").success)) :=
  ⟨Or.inr (by decide),
   C1_benchmark_counts (fun i => ⟨i, "", "e", 1⟩) (fun _ => 1) "SELECT 1" 3 2 [2, 0, 1] none
     (Or.inr (by decide))⟩

/-! ### C2 — percentile algorithm -/

/-- Truncation toward zero agrees with floor on nonnegative input. -/
theorem pyTrunc_of_nonneg (q : ℚ) (h : 0 ≤ q) : pyTrunc q = ⌊q⌋ := if_pos h

/-- The source percentile at 95 computes exactly the sort/fractional-rank/
interpolation algorithm the spec describes. -/
theorem percentile95_eq_spec (data : List ℚ) (hd : data ≠ []) :
    _percentile data 95 = p95_spec data := by
  simp only [_percentile, p95_spec, if_neg hd]
  set ordered := List.insertionSort (fun a b : ℚ => a ≤ b) data with hord
  set k : ℚ := ((ordered.length : ℚ) - 1) * (95 / 100) with hk
  have h1 : 1 ≤ ordered.length := by
    rw [hord, (List.perm_insertionSort _ data).length_eq]
    exact List.length_pos.mpr hd
  have hk0 : 0 ≤ k := by
    rw [hk]
    apply mul_nonneg
    · have : (1 : ℚ) ≤ (ordered.length : ℚ) := by exact_mod_cast h1
      linarith
    · norm_num
  by_cases hfc : ⌊k⌋ = ⌈k⌉
  · have hik : (⌊k⌋ : ℚ) = k := by
      refine le_antisymm (Int.floor_le k) ?_
      rw [hfc]
      exact Int.le_ceil k
    rw [if_pos hfc, if_pos hik, pyTrunc, if_pos hk0]
  · have hik : ¬((⌊k⌋ : ℚ) = k) := by
      intro h
      apply hfc
      have hcast := Int.ceil_intCast (α := ℚ) ⌊k⌋
      rw [h] at hcast
      exact hcast.symm
    rw [if_neg hfc, if_neg hik]

/-- C2: the benchmarker's p95 equals the spec's sort/fractional-rank/
interpolation algorithm on the recorded samples; p95 of
`[10, 20, 30, 40, 50]` is `48`; with an empty sample list both the
percentile and the benchmark's average and p95 are `0`. -/
theorem C2_p95_algorithm :
    (∀ (outcomes : Nat → ProcOutcome) (timing : Nat → ℚ) (sql : String)
       (iterations concurrency : Nat) (sched : List Nat) (baseline : Option ℚ),
       (run_benchmark outcomes timing sql iterations concurrency sched baseline).samples_ms
         ≠ [] →
       (run_benchmark outcomes timing sql iterations concurrency sched baseline).p95_ms =
         p95_spec
           (run_benchmark outcomes timing sql iterations concurrency sched
             baseline).samples_ms) ∧
    _percentile [10, 20, 30, 40, 50] 95 = 48 ∧
    (∀ q : ℚ, _percentile [] q = 0) ∧
    (∀ (outcomes : Nat → ProcOutcome) (timing : Nat → ℚ) (sql : String)
       (baseline : Option ℚ),
       (run_benchmark outcomes timing sql 0 1 [] baseline).avg_ms = 0 ∧
       (run_benchmark outcomes timing sql 0 1 [] baseline).p95_ms = 0) := by
  refine ⟨?_, ?_, ?_, ?_⟩
  · intro outcomes timing sql iterations concurrency sched baseline h
    simp only [run_benchmark] at h ⊢
    rw [if_neg h]
    exact percentile95_eq_spec _ h
  · have hf : ⌊(19 / 5 : ℚ)⌋ = 3 := by
      rw [Int.floor_eq_iff]
      norm_num
    have hc : ⌈(19 / 5 : ℚ)⌉ = 4 := by
      rw [Int.ceil_eq_iff]
      norm_num
    have h3 : Int.toNat 3 = 3 := rfl
    have h4 : Int.toNat 4 = 4 := rfl
    norm_num [_percentile, List.insertionSort, List.orderedInsert, List.getD, hf, hc, h3, h4,
      List.cons_ne_nil, List.getElem_cons_succ, List.getElem_cons_zero]
  · intro q
    simp [_percentile]
  · intro outcomes timing sql baseline
    exact ⟨rfl, rfl⟩

/-- Witness for C2 at a one-iteration benchmark with nonempty samples. -/
theorem C2_witness :
    ((run_benchmark (fun _ => ⟨0, "", "", 1⟩) (fun _ => 1) "S" 1 1 [] none).samples_ms
      ≠ []) ∧
    (run_benchmark (fun _ => ⟨0, "", "", 1⟩) (fun _ => 1) "S" 1 1 [] none).p95_ms =
      p95_spec
        (run_benchmark (fun _ => ⟨0, "", "", 1⟩) (fun _ => 1) "S" 1 1 [] none).samples_ms :=
  ⟨by decide, C2_p95_algorithm.1 (fun _ => ⟨0, "", "", 1⟩) (fun _ => 1) "S" 1 1 [] none
    (by decide)⟩

/-! ### C7 — source-read failure handling -/

/-- Counterexample to C7 as stated: neither reader yields an empty
statement list on every missing-or-unreadable path — the jsonl reader
aborts already on a missing path, and the flat-line reader aborts on an
existing but unreadable path (its guard is only `os.path.exists`). -/
theorem C7_counterexample :
    (load_sqls_from_jsonl (fun _ => .absent) (fun _ => none) "capture.jsonl" ≠
        Except.ok [] ∧
      load_sqls_from_jsonl (fun _ => .absent) (fun _ => none) "capture.jsonl" =
        Except.error "FileNotFoundError") ∧
    (_read_sql_lines (fun _ => .unreadable) "sqls.txt" ≠ Except.ok [] ∧
      _read_sql_lines (fun _ => .unreadable) "sqls.txt" =
        Except.error "PermissionError") :=
  ⟨⟨fun h => Except.noConfusion h, rfl⟩, ⟨fun h => Except.noConfusion h, rfl⟩⟩

/-- C7 (amended): a flat-line source at a missing path yields an empty
statement list rather than aborting, but a flat-line source at an
existing-but-unreadable path, and a jsonl capture-log source at a
missing or unreadable path, abort the run with the uncaught open error;
a capture-log line that fails to parse is skipped silently and does not
contribute to the result. -/
theorem C7_amended_read_failures :
    (∀ (fs : String → FileState) (path : String),
       fs path = .absent → _read_sql_lines fs path = Except.ok []) ∧
    (∀ (fs : String → FileState) (path : String),
       fs path = .unreadable →
       _read_sql_lines fs path = Except.error "PermissionError") ∧
    (∀ (fs : String → FileState) (jparse : String → Option PyVal) (path : String),
       fs path = .absent →
       load_sqls_from_jsonl fs jparse path = Except.error "FileNotFoundError") ∧
    (∀ (fs : String → FileState) (jparse : String → Option PyVal) (path : String),
       fs path = .unreadable →
       load_sqls_from_jsonl fs jparse path = Except.error "PermissionError") ∧
    (∀ (jparse : String → Option PyVal) (line : String) (rest : List String),
       pyStrip line ≠ "" → jparse (pyStrip line) = none →
       jsonl_lines jparse (line :: rest) = jsonl_lines jparse rest) := by
  refine ⟨?_, ?_, ?_, ?_, ?_⟩
  · intro fs path h
    simp [_read_sql_lines, h]
  · intro fs path h
    simp [_read_sql_lines, h]
  · intro fs jparse path h
    simp [load_sqls_from_jsonl, h]
  · intro fs jparse path h
    simp [load_sqls_from_jsonl, h]
  · intro jparse line rest h1 h2
    simp [jsonl_lines, jsonl_line, h1, h2]

/-- Witness for C7 (amended) at concrete missing and unreadable files
and a concrete undecodable line. -/
theorem C7_witness :
    _read_sql_lines (fun _ => .absent) "sqls.txt" = Except.ok [] ∧
    _read_sql_lines (fun _ => .unreadable) "other.txt" =
      Except.error "PermissionError" ∧
    load_sqls_from_jsonl (fun _ => .absent) (fun _ => none) "log.jsonl" =
      Except.error "FileNotFoundError" ∧
    load_sqls_from_jsonl (fun _ => .unreadable) (fun _ => none) "log2.jsonl" =
      Except.error "PermissionError" ∧
    jsonl_lines (fun _ => none) ["not json"] = jsonl_lines (fun _ => none) [] :=
  ⟨C7_amended_read_failures.1 (fun _ => .absent) "sqls.txt" rfl,
   C7_amended_read_failures.2.1 (fun _ => .unreadable) "other.txt" rfl,
   C7_amended_read_failures.2.2.1 (fun _ => .absent) (fun _ => none) "log.jsonl" rfl,
   C7_amended_read_failures.2.2.2.1 (fun _ => .unreadable) (fun _ => none) "log2.jsonl" rfl,
   C7_amended_read_failures.2.2.2.2 (fun _ => none) "not json" [] (by decide) rfl⟩

/-! ### C8 — deduplication -/

/-- The dedup key of the record written for a row is the row's key. -/
theorem record_key_make (cfg : StreamConfig) (binds_fn : String → Int → List BindRow)
    (r : VRow) : record_key (make_record cfg binds_fn r) = row_key r := rfl

/-- Dedup invariant of one row step: with `dedup=true`, the output holds
at most one record per key, and every key present in the output has been
recorded in `seen`. -/
theorem process_row_dedup_inv (cfg : StreamConfig)
    (binds_fn : String → Int → List BindRow) (hd : cfg.dedup = true)
    (k : String × Int × Int) (st : StreamState) (r : VRow)
    (h1 : st.output.countP (fun rc => decide (record_key rc = k)) ≤ 1)
    (h2 : 1 ≤ st.output.countP (fun rc => decide (record_key rc = k)) → k ∈ st.seen) :
    (process_row cfg binds_fn st r).output.countP
      (fun rc => decide (record_key rc = k)) ≤ 1 ∧
    (1 ≤ (process_row cfg binds_fn st r).output.countP
        (fun rc => decide (record_key rc = k)) →
      k ∈ (process_row cfg binds_fn st r).seen) := by
  cases hsch : row_passes_schema cfg r with
  | false =>
    have he : process_row cfg binds_fn st r = st := by
      unfold process_row
      rw [hsch]
      rfl
    rw [he]
    exact ⟨h1, h2⟩
  | true =>
  cases hmod : row_passes_module cfg r with
  | false =>
    have he : process_row cfg binds_fn st r = st := by
      unfold process_row
      rw [hsch, hmod]
      rfl
    rw [he]
    exact ⟨h1, h2⟩
  | true =>
  cases hseen : st.seen.contains (row_key r) with
  | true =>
    have he : process_row cfg binds_fn st r = st := by
      unfold process_row
      rw [hsch, hmod, hd, hseen]
      rfl
    rw [he]
    exact ⟨h1, h2⟩
  | false =>
    have hnotmem : row_key r ∉ st.seen := by
      intro hmem
      have hc : st.seen.contains (row_key r) = true := List.elem_iff.mpr hmem
      rw [hseen] at hc
      cases hc
    have hout : (process_row cfg binds_fn st r).output =
        st.output ++ [make_record cfg binds_fn r] := by
      unfold process_row
      rw [hsch, hmod, hd, hseen]
      rfl
    have hsn : (process_row cfg binds_fn st r).seen = st.seen ++ [row_key r] := by
      unfold process_row
      rw [hsch, hmod, hd, hseen]
      rfl
    rw [hout, hsn]
    by_cases hk : row_key r = k
    · have h0 : st.output.countP (fun rc => decide (record_key rc = k)) = 0 := by
        by_contra hne
        have hge : 1 ≤ st.output.countP (fun rc => decide (record_key rc = k)) :=
          Nat.one_le_iff_ne_zero.mpr hne
        apply hnotmem
        rw [hk]
        exact h2 hge
      constructor
      · rw [List.countP_append, h0]
        simp [List.countP_cons, record_key_make, hk]
      · intro _
        simp [List.mem_append, ← hk]
    · have hz : List.countP (fun rc => decide (record_key rc = k))
          [make_record cfg binds_fn r] = 0 := by
        simp [List.countP_cons, record_key_make, hk]
      constructor
      · rw [List.countP_append, hz]
        simpa using h1
      · intro hge
        rw [List.countP_append, hz] at hge
        simp only [Nat.add_zero] at hge
        exact List.mem_append_left _ (h2 hge)

/-- The dedup invariant is preserved by the row loop. -/
theorem rows_foldl_dedup_inv (cfg : StreamConfig)
    (binds_fn : String → Int → List BindRow) (hd : cfg.dedup = true)
    (k : String × Int × Int) (rows : List VRow) : ∀ st : StreamState,
    (st.output.countP (fun rc => decide (record_key rc = k)) ≤ 1 ∧
      (1 ≤ st.output.countP (fun rc => decide (record_key rc = k)) → k ∈ st.seen)) →
    ((rows.foldl (process_row cfg binds_fn) st).output.countP
        (fun rc => decide (record_key rc = k)) ≤ 1 ∧
      (1 ≤ (rows.foldl (process_row cfg binds_fn) st).output.countP
          (fun rc => decide (record_key rc = k)) →
        k ∈ (rows.foldl (process_row cfg binds_fn) st).seen)) := by
  induction rows with
  | nil => intro st h; exact h
  | cons r rest ih =>
    intro st h
    exact ih _ (process_row_dedup_inv cfg binds_fn hd k st r h.1 h.2)

/-- The dedup invariant is preserved by one poll (the cursor advance does
not touch output or seen keys). -/
theorem process_poll_dedup_inv (cfg : StreamConfig)
    (binds_fn : String → Int → List BindRow) (hd : cfg.dedup = true)
    (k : String × Int × Int) (st : StreamState) (rows : List VRow)
    (h : st.output.countP (fun rc => decide (record_key rc = k)) ≤ 1 ∧
      (1 ≤ st.output.countP (fun rc => decide (record_key rc = k)) → k ∈ st.seen)) :
    ((process_poll cfg binds_fn st rows).output.countP
        (fun rc => decide (record_key rc = k)) ≤ 1 ∧
      (1 ≤ (process_poll cfg binds_fn st rows).output.countP
          (fun rc => decide (record_key rc = k)) →
        k ∈ (process_poll cfg binds_fn st rows).seen)) := by
  unfold process_poll
  cases rows.getLast? with
  | none => exact rows_foldl_dedup_inv cfg binds_fn hd k rows st h
  | some r => exact rows_foldl_dedup_inv cfg binds_fn hd k rows _ ⟨h.1, h.2⟩

/-- The dedup invariant is preserved across any sequence of polls. -/
theorem polls_foldl_dedup_inv (cfg : StreamConfig)
    (binds_fn : String → Int → List BindRow) (hd : cfg.dedup = true)
    (k : String × Int × Int) (polls : List (List VRow)) : ∀ st : StreamState,
    (st.output.countP (fun rc => decide (record_key rc = k)) ≤ 1 ∧
      (1 ≤ st.output.countP (fun rc => decide (record_key rc = k)) → k ∈ st.seen)) →
    ((polls.foldl (process_poll cfg binds_fn) st).output.countP
        (fun rc => decide (record_key rc = k)) ≤ 1 ∧
      (1 ≤ (polls.foldl (process_poll cfg binds_fn) st).output.countP
          (fun rc => decide (record_key rc = k)) →
        k ∈ (polls.foldl (process_poll cfg binds_fn) st).seen)) := by
  induction polls with
  | nil => intro st h; exact h
  | cons rows rest ih =>
    intro st h
    exact ih _ (process_poll_dedup_inv cfg binds_fn hd k st rows h)

/-- C8: with `dedup=true` every key is written at most once across all
polls; with `dedup=false` the identical record observed in two polls is
written twice. -/
theorem C8_dedup_at_most_once :
    (∀ (cfg : StreamConfig) (binds_fn : String → Int → List BindRow) (init_time : Int)
       (polls : List (List VRow)) (k : String × Int × Int),
       cfg.dedup = true →
       (stream_sqls cfg binds_fn init_time polls).output.countP
         (fun rc => decide (record_key rc = k)) ≤ 1) ∧
    (stream_sqls ⟨false, false, none, none, true⟩ (fun _ _ => []) 0
        [[⟨"a", 0, none, none, 10, "SELECT 1", none, none, none, none, none, none, none⟩],
         [⟨"a", 0, none, none, 10, "SELECT 1", none, none, none, none, none, none,
           none⟩]]).output.countP
      (fun rc => decide (record_key rc = ("a", 0, 10))) = 2 := by
  constructor
  · intro cfg binds_fn init_time polls k hd
    exact (polls_foldl_dedup_inv cfg binds_fn hd k polls
      { last_time := init_time, seen := [], output := [], count := 0 }
      ⟨by simp, by simp⟩).1
  · decide

/-- Witness for C8 at a concrete dedup-enabled run that sees the same
record in two polls. -/
theorem C8_witness :
    (⟨false, true, none, none, true⟩ : StreamConfig).dedup = true ∧
    (stream_sqls ⟨false, true, none, none, true⟩ (fun _ _ => []) 0
        [[⟨"a", 0, none, none, 10, "SELECT 1", none, none, none, none, none, none, none⟩],
         [⟨"a", 0, none, none, 10, "SELECT 1", none, none, none, none, none, none,
           none⟩]]).output.countP
      (fun rc => decide (record_key rc = ("a", 0, 10))) ≤ 1 :=
  ⟨rfl,
   C8_dedup_at_most_once.1 ⟨false, true, none, none, true⟩ (fun _ _ => []) 0
     [[⟨"a", 0, none, none, 10, "SELECT 1", none, none, none, none, none, none, none⟩],
      [⟨"a", 0, none, none, 10, "SELECT 1", none, none, none, none, none, none, none⟩]]
     ("a", 0, 10) rfl⟩

/-! ### C9 — cursor monotonicity -/

/-- The row loop never touches the cursor. -/
theorem process_row_last_time (cfg : StreamConfig)
    (binds_fn : String → Int → List BindRow) (st : StreamState) (r : VRow) :
    (process_row cfg binds_fn st r).last_time = st.last_time := by
  unfold process_row
  split
  · rfl
  · split
    · rfl
    · split
      · rfl
      · rfl

/-- Folding the row loop never touches the cursor. -/
theorem rows_foldl_last_time (cfg : StreamConfig)
    (binds_fn : String → Int → List BindRow) (rows : List VRow) : ∀ st : StreamState,
    (rows.foldl (process_row cfg binds_fn) st).last_time = st.last_time := by
  induction rows with
  | nil => intro st; rfl
  | cons r rest ih =>
    intro st
    rw [List.foldl_cons, ih, process_row_last_time]

/-- The cursor after one poll is exactly `next_cursor`: the last row's
timestamp, or unchanged for an empty batch. -/
theorem process_poll_last_time (cfg : StreamConfig)
    (binds_fn : String → Int → List BindRow) (st : StreamState) (rows : List VRow) :
    (process_poll cfg binds_fn st rows).last_time = next_cursor st.last_time rows := by
  unfold process_poll next_cursor
  rw [rows_foldl_last_time]
  cases rows.getLast? with
  | none => rfl
  | some r => rfl

/-- An element reported by `getLast?` is a member of the list. -/
theorem mem_of_getLast_eq_some {α : Type} (l : List α) (a : α)
    (h : l.getLast? = some a) : a ∈ l := by
  cases l with
  | nil => cases h
  | cons x xs =>
    rw [List.getLast?_eq_getLast _ (by simp)] at h
    cases h
    exact List.getLast_mem _

/-- If every row of the batch is newer than the cursor, the cursor does
not move backwards. -/
theorem next_cursor_ge (t : Int) (rows : List VRow)
    (h : ∀ r ∈ rows, t < r.last_active) : t ≤ next_cursor t rows := by
  unfold next_cursor
  cases hl : rows.getLast? with
  | none => exact le_refl t
  | some r => exact le_of_lt (h r (mem_of_getLast_eq_some rows r hl))

/-- Under valid polling, the cursor trace at poll boundaries is
monotonically non-decreasing. -/
theorem poll_states_chain (cfg : StreamConfig)
    (binds_fn : String → Int → List BindRow) (polls : List (List VRow)) :
    ∀ st : StreamState, valid_polls st.last_time polls →
    List.Chain' (· ≤ ·)
      ((poll_states cfg binds_fn st polls).map (fun s => s.last_time)) := by
  induction polls with
  | nil => intro st _; simp [poll_states]
  | cons rows rest ih =>
    intro st hv
    simp only [poll_states, List.map_cons]
    rw [List.chain'_cons']
    constructor
    · intro b hb
      have hh : ((poll_states cfg binds_fn (process_poll cfg binds_fn st rows) rest).map
          (fun s => s.last_time)).head? =
          some ((process_poll cfg binds_fn st rows).last_time) := by
        cases rest with
        | nil => rfl
        | cons p ps => rfl
      simp only [hh, Option.mem_def, Option.some.injEq] at hb
      subst hb
      rw [process_poll_last_time]
      exact next_cursor_ge st.last_time rows hv.1
    · apply ih
      rw [process_poll_last_time]
      exact hv.2

/-- C9: across every valid poll sequence the cursor is monotonically
non-decreasing, it is exactly `next_cursor` after each poll, it stays put
on an empty batch, and it jumps to the last row's timestamp on a
nonempty batch. -/
theorem C9_cursor_monotone (cfg : StreamConfig)
    (binds_fn : String → Int → List BindRow) (init_time : Int)
    (polls : List (List VRow)) (h : valid_polls init_time polls) :
    List.Chain' (· ≤ ·)
      ((poll_states cfg binds_fn
          { last_time := init_time, seen := [], output := [], count := 0 } polls).map
        (fun s => s.last_time)) ∧
    (∀ (st : StreamState) (rows : List VRow),
      (process_poll cfg binds_fn st rows).last_time = next_cursor st.last_time rows) ∧
    (∀ t : Int, next_cursor t [] = t) ∧
    (∀ (t : Int) (rows : List VRow) (h2 : rows ≠ []),
      next_cursor t rows = (rows.getLast h2).last_active) := by
  refine ⟨poll_states_chain cfg binds_fn polls _ h,
    fun st rows => process_poll_last_time cfg binds_fn st rows, fun t => rfl, ?_⟩
  intro t rows h2
  unfold next_cursor
  rw [List.getLast?_eq_getLast rows h2]

/-- Witness for C9 at a concrete valid two-poll run (one batch, then an
empty poll). -/
theorem C9_witness :
    valid_polls 0
      [[⟨"a", 0, none, none, 10, "S", none, none, none, none, none, none, none⟩], []] ∧
    List.Chain' (· ≤ ·)
      ((poll_states ⟨false, false, none, none, true⟩ (fun _ _ => [])
          { last_time := 0, seen := [], output := [], count := 0 }
          [[⟨"a", 0, none, none, 10, "S", none, none, none, none, none, none, none⟩],
           []]).map (fun s => s.last_time)) :=
  ⟨by simp [valid_polls, next_cursor],
   (C9_cursor_monotone ⟨false, false, none, none, true⟩ (fun _ _ => []) 0
      [[⟨"a", 0, none, none, 10, "S", none, none, none, none, none, none, none⟩], []]
      (by simp [valid_polls, next_cursor])).1⟩

/-! ### C10 — explicit sqls_file bypasses the analysis tool -/

/-- C10: given an explicit (truthy) `sqls_file`, `run_offline` never
invokes the analysis-tool subprocess, the report's external-tool output
is absent, and the statement list comes from reading the given file. -/
theorem C10_sqls_file_skips_tool (fs : String → FileState)
    (jparse : String → Option PyVal)
    (oma_run : String → String → Option String → String)
    (ob_client : OceanBaseClient)
    (bench_outcomes : String → Nat → ProcOutcome) (bench_timing : String → Nat → ℚ)
    (bench_sched : String → List Nat)
    (capture_dir mode : String) (concurrency iterations : Nat)
    (oma_cli oma_extra : Option String) (sqls_file : Option String)
    (sqls_format : String) (oracle_baselines : Option (List (String × ℚ)))
    (p : String) (h1 : sqls_file = some p) (h2 : p ≠ "") :
    (run_offline fs jparse oma_run ob_client bench_outcomes bench_timing bench_sched
        capture_dir mode concurrency iterations oma_cli oma_extra sqls_file sqls_format
        oracle_baselines).1 = false ∧
    ∀ rep : OfflineReport,
      (run_offline fs jparse oma_run ob_client bench_outcomes bench_timing bench_sched
          capture_dir mode concurrency iterations oma_cli oma_extra sqls_file sqls_format
          oracle_baselines).2 = Except.ok rep →
      rep.oma_output = none ∧ Except.ok rep.sqls = _read_sqls fs jparse p sqls_format := by
  subst h1
  have htr : pyTruthyStr (some p) = true := by simp [pyTruthyStr, h2]
  cases hr : _read_sqls fs jparse p sqls_format with
  | error e =>
    constructor
    · simp [run_offline, htr, h2, hr]
    · intro rep hrep
      have hq : (run_offline fs jparse oma_run ob_client bench_outcomes bench_timing
          bench_sched capture_dir mode concurrency iterations oma_cli oma_extra (some p)
          sqls_format oracle_baselines).2 = Except.error e := by
        simp [run_offline, htr, h2, hr]
      rw [hq] at hrep
      cases hrep
  | ok sqls =>
    constructor
    · simp [run_offline, htr, h2, hr]
    · intro rep hrep
      have hq : (run_offline fs jparse oma_run ob_client bench_outcomes bench_timing
          bench_sched capture_dir mode concurrency iterations oma_cli oma_extra (some p)
          sqls_format oracle_baselines).2 =
          Except.ok
            { sqls := sqls
              compat :=
                if mode = "compat" then
                  sqls.map (fun sql => (check_sql ob_client sql false).1) else []
              bench :=
                if mode = "compat" then []
                else
                  sqls.map (fun sql =>
                    run_benchmark (bench_outcomes sql) (bench_timing sql) sql iterations
                      concurrency (bench_sched sql)
                      ((oracle_baselines.getD []).lookup sql))
              oma_output := none
              oracle_baselines := oracle_baselines.getD [] } := by
        simp [run_offline, htr, h2, hr]
      rw [hq] at hrep
      injection hrep with h3
      subst h3
      exact ⟨rfl, rfl⟩

/-- Witness for C10 at concrete arguments with an explicit SQL file. -/
theorem C10_witness :
    (some "my.txt" = some "my.txt" ∧ "my.txt" ≠ "") ∧
    (run_offline (fun _ => FileState.content ["SELECT 1"]) (fun _ => none) (fun _ _ _ => "OUT")
        ⟨fun _ => ⟨0, "", "", 1⟩⟩ (fun _ _ => ⟨0, "", "", 1⟩) (fun _ _ => 1) (fun _ => [])
        "cap" "compat" 1 1 (some "oma") none (some "my.txt") "lines" none).1 = false ∧
    ∀ rep : OfflineReport,
      (run_offline (fun _ => FileState.content ["SELECT 1"]) (fun _ => none) (fun _ _ _ => "OUT")
          ⟨fun _ => ⟨0, "", "", 1⟩⟩ (fun _ _ => ⟨0, "", "", 1⟩) (fun _ _ => 1) (fun _ => [])
          "cap" "compat" 1 1 (some "oma") none (some "my.txt") "lines" none).2 =
        Except.ok rep →
      rep.oma_output = none ∧
      Except.ok rep.sqls =
        _read_sqls (fun _ => FileState.content ["SELECT 1"]) (fun _ => none) "my.txt" "lines" :=
  ⟨⟨rfl, by decide⟩,
   C10_sqls_file_skips_tool (fun _ => FileState.content ["SELECT 1"]) (fun _ => none)
     (fun _ _ _ => "OUT") ⟨fun _ => ⟨0, "", "", 1⟩⟩ (fun _ _ => ⟨0, "", "", 1⟩)
     (fun _ _ => 1) (fun _ => []) "cap" "compat" 1 1 (some "oma") none (some "my.txt")
     "lines" none "my.txt" rfl (by decide)⟩
